import Mathlib

/-!
Verification of the `web-share` static file server (`src/web-share.go`).

The program is embedded shallowly:

* Strings are modelled as Lean `String`s, i.e. sequences of characters;
  the Go code manipulates bytes, and on the ASCII inputs relevant here the
  two views coincide (byte length = character count, byte slicing =
  character slicing).
* `url.QueryUnescape` of the Go standard library is modelled character by
  character after its documented algorithm: `%XY` with two hex digits
  decodes to the code point `16*X + Y`, a `%` not followed by two hex
  digits is an error, `+` decodes to a space, every other character is
  copied verbatim.
* The HTTP handler returned by `serveFrom` is modelled as a pure function
  from a request to a description of its observable effects: the response
  headers it sets itself (in order), the log lines it emits, and the final
  action it takes (error response, serving the embedded icon, or
  delegating to the static file server).  The static file server
  (`http.FileServer`) is an external collaborator and is kept abstract: a
  parameter mapping the root directory and the request to a status code.
* `http.ServeContent` is an external collaborator as well; per the spec it
  answers an unconditional request for the embedded icon with HTTP 200,
  which is how the `serveIcon` action is given a status below.
* Startup (`main` up to the call of `run`) is modelled as a function of
  the command line arguments and an abstract operating system environment
  supplying the network interface table; `die` becomes a `fatal` result
  carrying the message written to the error stream and the exit code 1.
-/

/-- Whether a character is a hexadecimal digit, as in Go's `ishex`. -/
def isHex (c : Char) : Bool :=
  ('0' ≤ c && c ≤ '9') || ('a' ≤ c && c ≤ 'f') || ('A' ≤ c && c ≤ 'F')

/-- Numeric value of a hexadecimal digit, as in Go's `unhex`. -/
def unhex (c : Char) : Nat :=
  if '0' ≤ c && c ≤ '9' then c.toNat - '0'.toNat
  else if 'a' ≤ c && c ≤ 'f' then c.toNat - 'a'.toNat + 10
  else if 'A' ≤ c && c ≤ 'F' then c.toNat - 'A'.toNat + 10
  else 0

/-- Character-level model of Go's `url.QueryUnescape` main loop:
`%XY` (two hex digits) decodes to one character, a malformed `%` escape
fails, `+` becomes a space, anything else is copied. -/
def queryUnescapeAux : List Char → Option (List Char)
  | [] => some []
  | c :: rest =>
    if c = '%' then
      match rest with
      | c1 :: c2 :: rest2 =>
        if isHex c1 && isHex c2 then
          (queryUnescapeAux rest2).map (fun l => Char.ofNat (16 * unhex c1 + unhex c2) :: l)
        else none
      | _ => none
    else if c = '+' then (queryUnescapeAux rest).map (fun l => ' ' :: l)
    else (queryUnescapeAux rest).map (fun l => c :: l)

/-- Model of Go's `url.QueryUnescape`: `none` when the input contains a
malformed percent escape, otherwise the decoded string. -/
def QueryUnescape (s : String) : Option String :=
  (queryUnescapeAux s.data).map String.mk

/-- `maxURI` from `shortenURI` in `src/web-share.go`. -/
def maxURI : Nat := 500

/-- Model of `shortenURI` (`src/web-share.go`): a URI longer than 500
characters is cut to its first 500 characters and ` ...` is appended. -/
def shortenURI (uri : String) : String :=
  if uri.length > maxURI then String.mk (uri.data.take maxURI) ++ " ..." else uri

/-- Model of `uintToString` (`strconv.FormatUint` base 10). -/
def uintToString (val : Nat) : String := toString val

/-- An instant of time.  `time.Now()` values are opaque to the program;
only identity of the timestamp matters to the claims. -/
structure Timestamp where
  val : Nat
deriving DecidableEq, Repr

/-- `faviconTS`: the fixed process-start timestamp (`time.Now()` evaluated
once when the process loads).  Its concrete value is irrelevant; it is a
single fixed tag. -/
def faviconTS : Timestamp := ⟨0⟩

/-- An HTTP request, restricted to the fields the handler reads.
`rangeHeader` is the result of `req.Header.Get("Range")`, which in Go is
the empty string when the header is absent. -/
structure Request where
  requestURI : String
  method : String
  remoteAddr : String
  rangeHeader : String
  urlPath : String
deriving DecidableEq, Repr

/-- A line written to the trace log by the handler. -/
inductive LogLine where
  /-- `trace.Println(req.RemoteAddr, "Invalid URI:", err)` -/
  | invalidURI (remoteAddr : String)
  /-- `trace.Println(req.RemoteAddr, req.Method, shortenURI(uri))`,
  with the Range header value appended when it is logged. -/
  | request (remoteAddr method uri : String) (range : Option String)
deriving DecidableEq, Repr

/-- The final action the handler takes on a request. -/
inductive HandlerAction where
  /-- `http.Error(resp, body, status)` -/
  | httpError (body : String) (status : Nat)
  /-- `http.ServeContent(resp, req, name, modtime, content)` with the
  embedded icon bytes as content. -/
  | serveIcon (name : String) (modtime : Timestamp) (content : List Nat)
  /-- `server.ServeHTTP(resp, req)`: delegate to the static file server
  rooted at `root`, passing the original request unchanged. -/
  | delegate (root : String) (req : Request)
deriving DecidableEq, Repr

/-- Observable per-request behaviour of the handler: the headers it sets
itself via `resp.Header().Set` (in call order), the log lines it emits,
and its final action. -/
structure HandlerOutput where
  headersSet : List (String × String)
  logLines : List LogLine
  action : HandlerAction
deriving DecidableEq, Repr

/-- The Range header value as it appears in the log line: logged exactly
when present (non-empty) and different from `bytes=0-`
(`if rng := req.Header.Get("Range"); len(rng) > 0 && rng != "bytes=0-"`). -/
def loggedRange (rng : String) : Option String :=
  if rng.length > 0 && rng != "bytes=0-" then some rng else none

set_option maxHeartbeats 1600000 in
/-- The embedded icon resource (`var favicon = [...]byte` in
`src/web-share.go`), byte for byte. -/
def favicon : List Nat := [
  0x89,0x50,0x4E,0x47,0x0D,0x0A,0x1A,0x0A,0x00,0x00,0x00,0x0D,0x49,0x48,
  0x44,0x52,0x00,0x00,0x00,0x40,0x00,0x00,0x00,0x40,0x10,0x04,0x00,0x00,
  0x00,0x50,0xF0,0x65,0x16,0x00,0x00,0x00,0x04,0x67,0x41,0x4D,0x41,0x00,
  0x00,0xB1,0x8F,0x0B,0xFC,0x61,0x05,0x00,0x00,0x00,0x01,0x73,0x52,0x47,
  0x42,0x00,0xAE,0xCE,0x1C,0xE9,0x00,0x00,0x00,0x20,0x63,0x48,0x52,0x4D,
  0x00,0x00,0x7A,0x26,0x00,0x00,0x80,0x84,0x00,0x00,0xFA,0x00,0x00,0x00,
  0x80,0xE8,0x00,0x00,0x75,0x30,0x00,0x00,0xEA,0x60,0x00,0x00,0x3A,0x98,
  0x00,0x00,0x17,0x70,0x9C,0xBA,0x51,0x3C,0x00,0x00,0x00,0x02,0x62,0x4B,
  0x47,0x44,0xFF,0xFF,0x14,0xAB,0x31,0xCD,0x00,0x00,0x00,0x09,0x70,0x48,
  0x59,0x73,0x00,0x00,0x00,0x48,0x00,0x00,0x00,0x48,0x00,0x46,0xC9,0x6B,
  0x3E,0x00,0x00,0x0A,0xD9,0x49,0x44,0x41,0x54,0x78,0xDA,0xED,0x9B,0x69,
  0x70,0x54,0x55,0x1A,0x86,0x9F,0x73,0x6F,0x2F,0xE9,0x24,0x9D,0x3D,0x21,
  0x34,0x21,0x80,0x11,0x02,0x86,0x48,0x92,0x66,0x1B,0x20,0x04,0x04,0x29,
  0x01,0x11,0xC7,0xA5,0xDC,0x10,0x65,0x86,0x88,0x8C,0xE3,0x8C,0x96,0x88,
  0x32,0x22,0xD6,0x20,0x2E,0x28,0x35,0xEE,0x0E,0x0E,0x83,0xA2,0x38,0x55,
  0x2A,0x08,0x88,0x80,0x44,0x04,0x71,0x40,0x50,0x20,0x01,0x22,0x4B,0x90,
  0xC4,0xB0,0x06,0xC8,0xDE,0xE9,0x74,0x7A,0xBD,0xF7,0xCC,0x8F,0x20,0x8A,
  0xE0,0x4C,0xA5,0x1B,0xE9,0x4C,0xC9,0x5B,0xD5,0x7F,0xBA,0xEE,0xFD,0xCE,
  0xF7,0x3E,0x7D,0xEE,0x39,0xE7,0x9E,0xEF,0x34,0xFC,0xCA,0x25,0xCE,0xF7,
  0xA5,0x7D,0x3C,0x46,0x3A,0x90,0x24,0x73,0x88,0x65,0x21,0x2A,0x32,0x84,
  0x16,0xF2,0x91,0xCC,0xA1,0x59,0xC4,0x52,0x5D,0xAC,0xE3,0x09,0xB7,0xE1,
  0xFF,0x0A,0xC0,0xBE,0x80,0x68,0xE6,0x8B,0xCE,0x34,0x1A,0xF2,0xE9,0x6C,
  0x9A,0x2A,0x97,0xAA,0xD9,0x94,0x88,0x99,0x21,0x01,0xE8,0xC2,0x66,0x51,
  0xA0,0xAD,0x43,0xF8,0xC0,0xE3,0xAF,0x95,0xC7,0x65,0x01,0x65,0x54,0x96,
  0xD8,0x43,0x8A,0x7A,0xE1,0x01,0xD8,0xED,0xC4,0x90,0x22,0x76,0x51,0x9F,
  0x30,0x86,0xA6,0x1E,0xF9,0xC4,0x64,0xA4,0x73,0xC0,0xFA,0x99,0x3C,0x29,
  0x96,0x86,0x92,0xAA,0x88,0x25,0x87,0x2E,0xEE,0x91,0x68,0x47,0x7A,0xE1,
  0x29,0x5B,0x43,0xF5,0xC9,0xB5,0xB2,0x4A,0x1B,0x5C,0x92,0xC2,0xCE,0x70,
  0x9B,0x3F,0x03,0xC0,0xDE,0x0D,0x41,0xBC,0x58,0x8F,0x9A,0x7C,0x00,0x46,
  0x2F,0x20,0x30,0x7E,0x18,0x6A,0x8F,0x41,0xB8,0x22,0xEF,0xC3,0x2B,0x8C,
  0x21,0xB5,0x60,0x90,0xB3,0x89,0xF0,0x1D,0x45,0x1E,0xCD,0xC3,0x5F,0x14,
  0x8F,0x67,0x79,0x1A,0x1C,0x6A,0x26,0x53,0xEB,0x57,0x5C,0x84,0x3B,0xDC,
  0x00,0x0C,0x00,0xA8,0xA4,0xA0,0x9B,0x07,0x41,0xDE,0x68,0xC4,0x6D,0x0E,
  0x94,0x21,0x19,0xC8,0xC8,0xED,0x58,0x44,0x2E,0x16,0x62,0x43,0x6C,0x63,
  0x25,0x42,0xDE,0x8F,0xEC,0x1A,0x8D,0x9A,0xD8,0x8C,0xA5,0x61,0x1E,0x91,
  0x1F,0x5E,0x89,0xAD,0x71,0x1C,0xF0,0x41,0xFB,0x00,0x30,0x8C,0xD1,0x54,
  0x45,0x37,0xE2,0xCC,0xA9,0xC5,0xD3,0x7B,0x2B,0x7A,0x94,0x07,0x0B,0x1B,
  0x98,0x8C,0x81,0x09,0x80,0x1A,0x42,0x0B,0x9B,0x80,0xB9,0x42,0x72,0xD2,
  0xFC,0x31,0x86,0xCB,0x0F,0x60,0xEE,0x3F,0x86,0x98,0x8D,0xAF,0x63,0x70,
  0x1C,0xA5,0x1D,0x0C,0x03,0xAD,0x00,0xFC,0x0C,0x44,0x31,0xBF,0x81,0x9A,
  0xBC,0x1D,0x11,0x9D,0x0D,0xEC,0x52,0x8F,0x61,0xE8,0x58,0x01,0xC9,0x03,
  0x80,0x77,0x82,0x8C,0x5E,0x05,0xCE,0xE7,0xE1,0xA8,0x1D,0xE1,0x75,0x32,
  0x8E,0x16,0xF3,0x20,0xFC,0xC9,0xD3,0x70,0x44,0x0E,0xC1,0xC3,0xF5,0x40,
  0xCF,0xF6,0x01,0x60,0x1F,0x31,0x48,0x31,0x1C,0xD4,0xC7,0x90,0xCA,0xD5,
  0xC0,0x74,0xC3,0x3C,0xC8,0xBA,0x07,0xEC,0xDD,0x41,0xD4,0x05,0x19,0x7D,
  0x0B,0x54,0x46,0x42,0x7D,0x1F,0xF0,0xEE,0x47,0xE0,0x12,0x3B,0xD0,0xD4,
  0x07,0xD1,0x94,0xCD,0x78,0xC9,0x0C,0xB7,0xF9,0x1F,0x00,0xE8,0x00,0x28,
  0x20,0xCC,0xC0,0x70,0x00,0xAE,0x07,0x65,0x14,0x18,0x33,0x41,0x38,0x82,
  0x8C,0x5E,0x0F,0xEA,0xDB,0x20,0x66,0xB6,0x46,0xA7,0x75,0xD0,0x35,0x9E,
  0x69,0xB7,0x1D,0x48,0x09,0x77,0x02,0xE1,0xD6,0x25,0x00,0xE1,0x4E,0x20,
  0xDC,0xBA,0x04,0x20,0xDC,0x09,0x84,0x5B,0x97,0x00,0x84,0x3B,0x81,0x70,
  0xEB,0x12,0x80,0x70,0x27,0x10,0x6E,0x5D,0x02,0x10,0xEE,0x04,0xC2,0xAD,
  0x4B,0x00,0xC2,0x9D,0x40,0xB8,0xF5,0xF3,0x6F,0x65,0x12,0x68,0x06,0x6A,
  0x4F,0x7F,0x82,0x51,0x2D,0xE0,0x00,0x02,0xE1,0xB6,0xF9,0xBF,0x01,0xE8,
  0x40,0x05,0xC8,0xB7,0x80,0x69,0x80,0x94,0x4B,0xA1,0xD9,0x0D,0x35,0x11,
  0x20,0xB6,0x04,0x19,0xBD,0x14,0x1C,0x7F,0x06,0x6D,0x1F,0xD0,0x1D,0x80,
  0x06,0x24,0xDB,0xD0,0x39,0x82,0xC6,0xEF,0xC3,0x6D,0xFE,0xC7,0x00,0xEA,
  0x40,0x57,0xC0,0x97,0x05,0x5A,0x0A,0x70,0x2A,0xB0,0x8D,0xF8,0xB2,0x67,
  0xE1,0xE4,0x8D,0x20,0x66,0x05,0x19,0x3D,0x1B,0x5C,0xFF,0x00,0xD7,0x37,
  0xC0,0x34,0x02,0x48,0x39,0x97,0x80,0x6F,0x35,0x5E,0xED,0x3A,0x9A,0x09,
  0x16,0xEB,0x2F,0x02,0x60,0x3D,0x78,0x3A,0x21,0xAB,0x96,0x40,0xE3,0x5E,
  0x44,0xEC,0x7B,0x7A,0xA9,0xF8,0x4B,0x4D,0x39,0xA6,0xDA,0xC7,0x09,0x7E,
  0xFB,0x42,0x02,0xB1,0x20,0x6F,0x41,0xC7,0xC3,0x0C,0x84,0xAB,0x2F,0xEA,
  0xF1,0x15,0x28,0xCE,0x02,0x3C,0x72,0x60,0xB8,0xCD,0xFF,0x00,0xC0,0xC3,
  0x26,0x34,0x57,0x37,0x44,0x71,0x35,0xA6,0x6D,0xF7,0x62,0x88,0x59,0x48,
  0x63,0xDC,0x33,0x4C,0x54,0xC6,0x4A,0xE8,0x77,0x9E,0xFB,0x52,0x69,0xDD,
  0x39,0x4A,0x07,0xBC,0xC0,0x66,0xA0,0x14,0xF0,0x9D,0x73,0x65,0x0E,0x55,
  0x1C,0x90,0x6F,0x23,0x5D,0xDB,0x91,0xA5,0xF3,0xD0,0xBE,0x2C,0x44,0xD6,
  0xBF,0x4C,0x0B,0xD7,0x84,0xDB,0xFC,0x19,0x00,0xC5,0x7B,0x69,0xB0,0x1B,
  0x7C,0x90,0x52,0xFA,0x1E,0xF1,0xEF,0xB8,0x30,0x35,0x1C,0x44,0xCD,0x76,
  0xA1,0x5B,0x4B,0xD0,0xC4,0x74,0xCE,0xAE,0x20,0xD9,0xC1,0xF2,0x34,0xA4,
  0x4E,0x81,0xA8,0x00,0x68,0x0F,0x41,0xF5,0x48,0x68,0xC8,0x03,0xBD,0xFC,
  0xDC,0x26,0x64,0x6F,0x34,0xCF,0x57,0xF8,0xCB,0xE3,0x09,0x14,0xED,0xC2,
  0xBB,0xB9,0x9A,0x66,0xD7,0x29,0xB9,0x91,0x4D,0x0C,0x08,0xB7,0xFD,0x1F,
  0x75,0x6E,0xD9,0x24,0x75,0xD1,0xA3,0x69,0x03,0xF2,0x8B,0x5B,0x31,0x1E,
  0xCC,0xC6,0x62,0xBB,0x1F,0x77,0xD4,0xAB,0x68,0xC2,0x7C,0x36,0x00,0xB1,
  0x18,0x32,0xDE,0x83,0xBB,0x6F,0x86,0xEC,0x27,0xA1,0xE5,0x5E,0x58,0xB5,
  0x00,0xD6,0x55,0x81,0xFB,0xE6,0x73,0xFD,0x93,0x8C,0xDF,0xF3,0x06,0x4D,
  0xA7,0x4A,0x71,0x1F,0x3F,0x82,0xB7,0x31,0x80,0xA6,0x7F,0x52,0x32,0xA0,
  0x7D,0xCC,0x0D,0x67,0xD7,0x06,0x47,0xA0,0x52,0xCE,0x38,0xB2,0xC4,0x0C,
  0xA2,0xD5,0x35,0x54,0x8B,0x47,0x71,0x8A,0xFC,0x9F,0xDC,0x72,0x19,0xE4,
  0x74,0x87,0xA7,0x47,0xC3,0xD0,0x58,0x68,0x7A,0x0D,0x9E,0xB2,0xC3,0xA2,
  0xE5,0xD0,0x5C,0x7D,0x1E,0x00,0x87,0x69,0x92,0x8D,0x94,0x6B,0x85,0xF2,
  0x88,0xDE,0x95,0x6D,0xCC,0x2A,0xB9,0xA9,0xFD,0x14,0x49,0xCF,0x1A,0xDE,
  0x8A,0xD7,0xA3,0x01,0x2B,0xEC,0x7F,0x92,0x1F,0x51,0x13,0x30,0xD2,0xC4,
  0xF3,0x38,0x7F,0x5A,0x41,0x16,0xCD,0xE0,0x1B,0x0C,0x5A,0x02,0xB0,0x1A,
  0xE4,0x97,0xE0,0xAF,0x02,0xDF,0xE7,0xE0,0x3B,0x77,0x61,0xA5,0x03,0x2E,
  0x54,0xB9,0x85,0xF9,0x25,0xE9,0xA7,0xF7,0x9F,0xDB,0x91,0xCE,0x3B,0xBE,
  0x17,0x3F,0x84,0xA4,0x75,0x40,0x3B,0x67,0x50,0xCB,0xF5,0xC9,0x34,0xD1,
  0x50,0x35,0x56,0x0C,0xFC,0x3A,0x95,0xF8,0xEC,0x02,0x22,0x2B,0xD6,0x13,
  0x57,0xF2,0x00,0x29,0x1E,0x43,0xF1,0x9B,0x2C,0xFB,0xD9,0x96,0x06,0x85,
  0xDB,0xEA,0xF9,0xD5,0xE6,0xA5,0xB0,0xF8,0x9C,0x72,0x91,0xEB,0x7E,0x8E,
  0xE8,0xEF,0xCA,0x50,0x6B,0x0A,0x31,0x57,0x2E,0x26,0xB5,0x7A,0x0A,0xB9,
  0x7A,0x75,0x5B,0x63,0xB5,0x07,0xB5,0x79,0x86,0x17,0xD7,0x32,0x1B,0x5B,
  0xB2,0x8E,0xCC,0xB7,0xA0,0x77,0x59,0x8B,0xDB,0x34,0x9F,0x93,0xD9,0x9F,
  0xC0,0x91,0x6F,0xC1,0x3B,0x26,0xD4,0x84,0xF2,0x5A,0xB0,0x8A,0x6C,0xD6,
  0xE1,0x53,0x3F,0xC3,0xA7,0xAE,0x23,0x55,0xE8,0x18,0x30,0x87,0xE0,0x50,
  0x23,0x46,0xBE,0x8B,0x57,0x66,0x50,0xAE,0x29,0xF2,0x4B,0x3D,0x9F,0xA5,
  0x7C,0x56,0xF2,0x30,0x5A,0x50,0x00,0xE8,0x29,0xA6,0xA3,0xC6,0xB4,0xA0,
  0xA4,0x79,0x21,0x72,0x22,0xBE,0xC4,0x5B,0xA8,0xB6,0xBD,0x49,0xAD,0x61,
  0x52,0xEB,0x92,0x20,0x78,0xD9,0xED,0xA8,0xE4,0x2A,0x23,0x50,0x62,0xAF,
  0x26,0x32,0xFD,0x63,0x8C,0x29,0xC7,0x51,0xCC,0x45,0x40,0x56,0xD0,0x41,
  0x75,0xAA,0xF1,0x68,0x0D,0xF8,0x9D,0x23,0xB1,0x1C,0xF3,0x88,0xCC,0x13,
  0x0B,0xE4,0x11,0xEF,0x9E,0xBC,0xCB,0x18,0x5B,0x72,0x23,0xB2,0xED,0x00,
  0x4C,0xC4,0x81,0xB8,0x17,0x94,0xB7,0x80,0x9B,0x90,0xA2,0x1F,0x9A,0x7A,
  0x3B,0x9A,0x38,0x19,0x8A,0xF9,0x3C,0x89,0x85,0xC9,0x8A,0xC2,0x89,0xB4,
  0x3A,0x6A,0x46,0xDD,0x89,0x7F,0xC4,0x32,0x4C,0x69,0xB7,0x22,0xCC,0x59,
  0xC0,0x15,0x41,0x07,0x96,0xD4,0xE0,0xD5,0x1F,0x41,0x77,0xAC,0xC3,0xB2,
  0x3B,0x8D,0x8E,0xAB,0xF6,0x89,0xCC,0xE2,0x06,0x59,0xE5,0xFA,0x1D,0xB0,
  0xB0,0xED,0x00,0x04,0x01,0x24,0x0B,0x41,0xCE,0x02,0xEA,0x80,0xE5,0x48,
  0x79,0x15,0x3A,0xFB,0x43,0x01,0x20,0x3A,0x30,0x8F,0xCE,0xD1,0x39,0x44,
  0x5D,0x15,0x83,0x52,0x38,0x09,0x35,0xEB,0x6E,0x94,0x88,0x06,0x84,0xC8,
  0xA3,0xB5,0x9E,0x18,0x2C,0x80,0x28,0x34,0x32,0x40,0x33,0x62,0xCC,0x2E,
  0x24,0x3A,0x7E,0x37,0x11,0x0D,0x43,0xC4,0xC0,0x7D,0xAB,0xED,0xF9,0x9A,
  0xB1,0xED,0x00,0xA2,0xE5,0x52,0x9C,0x6E,0xD0,0x9C,0xD7,0xA1,0xEA,0x49,
  0xE8,0x9E,0x15,0x34,0x3B,0xB6,0xD2,0xA8,0x0D,0x02,0xB6,0x06,0x9D,0x68,
  0x4F,0xC5,0x80,0xCF,0x16,0x8D,0xA7,0x60,0x06,0x7A,0xAF,0x25,0x10,0xF5,
  0x3A,0x82,0xA9,0x5C,0x98,0x3D,0x8B,0xFE,0xA0,0xD4,0xA1,0x74,0x88,0xC0,
  0x3C,0xEC,0xAF,0x18,0x36,0x26,0xD0,0x5C,0xBE,0x42,0xAE,0x74,0xDF,0xD0,
  0x76,0x00,0xC9,0x14,0x52,0x71,0xEA,0x18,0x11,0x9F,0x3B,0xB1,0x64,0xBD,
  0x89,0x7F,0xEF,0xB3,0x38,0x4A,0xAA,0x64,0x95,0xAF,0x32,0x84,0xDF,0x09,
  0x9A,0x15,0x37,0x22,0x61,0x1A,0x74,0x7C,0x02,0x2C,0xFD,0x81,0x2A,0x71,
  0x39,0x8A,0x79,0x2F,0x88,0x19,0x04,0xDD,0x07,0xE4,0x6F,0x21,0xD0,0x00,
  0x81,0xB5,0x24,0xF2,0x92,0xE2,0x41,0x24,0xF5,0x40,0xD8,0x66,0x63,0x32,
  0x3D,0x28,0xFA,0xB9,0x2F,0x6B,0x33,0x00,0x39,0x07,0x21,0x7E,0x23,0x3A,
  0x60,0x32,0x5A,0x09,0x28,0x13,0x91,0x86,0x9D,0xC4,0xA8,0x8F,0x89,0xBE,
  0x58,0x81,0x3D,0xC1,0x13,0x10,0x4B,0xC0,0xB8,0x1B,0x4C,0x43,0x41,0xC4,
  0x01,0x06,0xA3,0x03,0xBA,0x16,0x80,0x69,0x34,0x88,0xE4,0xE0,0xA2,0x06,
  0x76,0x42,0xDD,0xAD,0x50,0x3D,0x01,0x74,0x88,0x00,0x55,0x41,0x35,0xCD,
  0x24,0x52,0x11,0xA4,0x93,0xD0,0xF6,0x69,0x70,0x1C,0x4B,0xE8,0x94,0xBA,
  0x09,0xB5,0xE0,0x1E,0xD4,0xF4,0xE1,0x10,0x35,0x19,0xF2,0x5E,0x84,0x6F,
  0xFB,0x43,0x4B,0x08,0xFE,0x51,0x81,0x64,0x5A,0x83,0xB4,0xAE,0x18,0xFF,
  0x0E,0x86,0x3B,0xC1,0x38,0x09,0x82,0xDE,0x3E,0xE9,0x08,0xCA,0x68,0x60,
  0x30,0xF0,0x21,0x00,0x66,0xA0,0x33,0xD0,0x80,0x08,0x66,0x1A,0xB4,0x8A,
  0x91,0x60,0x8E,0x82,0xC8,0xF7,0x41,0x71,0x83,0xC9,0x02,0xD1,0x1F,0x80,
  0x92,0x03,0xAC,0x0F,0x9E,0x40,0x78,0x14,0xCC,0x00,0xA3,0x02,0x63,0x41,
  0x14,0x02,0x31,0xC0,0x60,0x10,0xCF,0xD2,0x4A,0xF5,0xFF,0x4E,0x6D,0xEF,
  0x01,0x4E,0xEA,0x30,0xEB,0x83,0x31,0x68,0x02,0x85,0xD7,0x40,0x6E,0x80,
  0x40,0x25,0x52,0x96,0x02,0x8B,0xC2,0x6D,0xA8,0xAD,0x6A,0x7B,0x0F,0x28,
  0x97,0xB3,0x71,0x39,0x52,0xD0,0x0F,0xC5,0x42,0xF3,0x24,0x94,0x53,0xA5,
  0x58,0x8E,0x5D,0x8E,0x1A,0x78,0x2A,0xDC,0x66,0x2E,0x0A,0x00,0xB9,0x96,
  0x39,0xA8,0xB5,0x57,0x20,0xBE,0xDA,0x85,0x7A,0xD4,0x8F,0xB2,0xEB,0x04,
  0x91,0x7B,0x5F,0x20,0xC2,0xBF,0x2F,0xDC,0x66,0x82,0x51,0xDB,0x67,0x81,
  0xDB,0x19,0x87,0x2D,0x46,0x41,0xCD,0xEA,0x86,0x9E,0x3A,0x15,0x49,0x3C,
  0xDF,0x8D,0x9F,0x4E,0xF5,0x96,0x21,0xF6,0xEC,0x43,0x5D,0x88,0x48,0xCC,
  0x41,0xEF,0xB2,0x0D,0xCC,0x5E,0x24,0x3A,0x75,0x9E,0x7E,0x38,0x0E,0x3F,
  0x4C,0x4E,0xFD,0x08,0x7C,0x5D,0x16,0xE1,0xED,0xB0,0x16,0xD4,0xE5,0x18,
  0xA9,0x23,0xDD,0x5B,0x81,0x6B,0xFB,0x1D,0x1C,0x89,0x18,0x85,0xF1,0x8A,
  0x7C,0xD4,0xBE,0x8B,0x09,0x24,0xAF,0x40,0x13,0xA6,0x8B,0x75,0x86,0xB2,
  0xED,0x63,0x40,0xBA,0x78,0x1B,0x91,0x34,0x14,0xB2,0x1E,0x40,0xC6,0x3F,
  0x07,0x89,0xF7,0x63,0x7D,0x7C,0x28,0xD6,0x8A,0xBB,0x30,0xEC,0x9C,0x88,
  0xDE,0x6D,0x3B,0xF4,0x7A,0x1C,0x4C,0x1B,0x11,0x48,0xE2,0x7D,0xA5,0xC4,
  0xEF,0x8F,0xC2,0x5F,0x2E,0xD1,0x07,0xDC,0x07,0x9D,0xEA,0x40,0x4C,0x20,
  0x80,0x8F,0xC3,0x5A,0x26,0x96,0x95,0x99,0x44,0x9A,0xD7,0xE0,0x1F,0x3E,
  0x98,0x40,0xCC,0x5C,0x88,0x3C,0x88,0x54,0x3E,0xBC,0x38,0xF6,0x83,0x01,
  0x10,0x25,0xF7,0xE2,0xF3,0x97,0xA1,0xB5,0xBC,0x8A,0xF4,0xFF,0x0B,0xCC,
  0x4D,0x28,0xD6,0xF1,0xE8,0x19,0xCB,0x70,0x5B,0x1F,0x44,0x8D,0x4B,0xC1,
  0x90,0x30,0x1F,0xC4,0x8B,0x00,0xA8,0xF2,0x45,0x84,0x51,0x47,0xDA,0xE2,
  0xD0,0xD2,0x56,0x43,0xE4,0x1D,0x80,0x44,0xA2,0x12,0xE0,0x19,0x5C,0xC3,
  0x46,0xA1,0x8B,0x15,0xD0,0x71,0x12,0x52,0xE9,0x0D,0x62,0x22,0x30,0xA2,
  0xFD,0x02,0xC8,0x67,0x0A,0x3B,0xAB,0xF7,0xE0,0x58,0xDF,0x19,0x3D,0x46,
  0x23,0x10,0x97,0x80,0xA6,0x47,0xE1,0x3B,0x1A,0x8F,0x7F,0xEF,0xA7,0xA8,
  0xE9,0x9D,0x51,0x7A,0xBC,0x8F,0x62,0xEA,0x03,0x08,0x84,0x2F,0x19,0xF7,
  0x81,0x41,0xA8,0x87,0xBF,0x81,0xDC,0x24,0xA4,0xED,0x55,0x84,0xD8,0x8D,
  0xE0,0x24,0x22,0x30,0x91,0xB8,0xA2,0x12,0xEA,0xCC,0x37,0xC0,0xE0,0x27,
  0x91,0x29,0xAF,0x80,0x2D,0x17,0xC5,0x9A,0x0F,0xEC,0x68,0x97,0x00,0xC4,
  0x1E,0x36,0xC8,0xD8,0xFA,0x97,0xF0,0x2C,0xB9,0x01,0xC3,0xCE,0x24,0x1C,
  0xD6,0x1D,0xB8,0xF4,0x2B,0x71,0xD4,0xBE,0x42,0xE0,0xC4,0xCB,0x18,0xE2,
  0xF6,0x60,0xB0,0xCD,0xC5,0x64,0x7A,0x06,0x81,0xC0,0xEC,0x7D,0x81,0x13,
  0x55,0x1E,0x1A,0x1D,0xD7,0x90,0xD4,0x69,0x0E,0x22,0xE1,0x20,0xAA,0x3A,
  0x06,0x85,0x72,0x4C,0x3E,0x41,0xD6,0x9E,0x25,0x6C,0x35,0x3F,0x81,0xA7,
  0x28,0x17,0xAD,0x6F,0x3D,0x86,0x09,0xDF,0x42,0xB6,0xF7,0x62,0xD5,0x6D,
  0xDB,0x0C,0x60,0xC7,0x4A,0x34,0xFB,0x78,0xFD,0x11,0xF4,0x1A,0x23,0x5D,
  0xEB,0xFA,0xB0,0x5F,0x19,0x41,0x83,0x5C,0x2B,0x2B,0xE4,0x6D,0x44,0xEA,
  0xEF,0xD2,0x58,0x5D,0x27,0xFA,0x97,0x77,0xC6,0x24,0x8A,0x10,0x40,0x47,
  0xF9,0x09,0x7E,0x5D,0xCA,0xAF,0x65,0xBE,0xC8,0xA8,0xE9,0x80,0x59,0xD4,
  0x63,0x11,0x0D,0x98,0xB0,0x92,0x24,0xBB,0xD2,0x45,0x5B,0xCB,0x1A,0x8A,
  0x30,0xD7,0xE6,0x61,0x54,0xA2,0x51,0xC6,0x56,0x5E,0xCC,0x53,0xE4,0x41,
  0x15,0xBD,0x8A,0x3F,0xC2,0x05,0x4C,0xE1,0x0B,0x9D,0xD3,0xCB,0xF6,0x02,
  0xA2,0x00,0xF8,0x63,0x6B,0xF2,0xDA,0x0F,0x17,0x6F,0x67,0x01,0x00,0x82,
  0x7F,0x9E,0xBE,0xB6,0xEF,0x8F,0x42,0x35,0xB0,0x82,0x9D,0xC0,0x7C,0xBB,
  0x5D,0x1B,0x0A,0xDA,0x51,0x90,0x3F,0xBC,0x0B,0x5C,0x04,0xFD,0xEA,0xCF,
  0x07,0xFC,0xEA,0x01,0xB4,0x9B,0x63,0xEB,0x48,0x02,0x08,0xBE,0x7F,0x04,
  0x3A,0x00,0x30,0x19,0x02,0x36,0x50,0xE6,0xD0,0xFA,0xA2,0x1C,0x84,0xB4,
  0x12,0xD0,0x3F,0x00,0xE2,0xCF,0x7C,0xD5,0x02,0x94,0x21,0x31,0xA3,0x07,
  0xB3,0x29,0xFA,0x4B,0xC9,0x2D,0x17,0x61,0xD4,0x66,0xA3,0xEA,0xE9,0x28,
  0xF2,0x51,0x40,0xD7,0xF6,0xA1,0xD4,0xAC,0x02,0xC3,0x78,0x20,0x3A,0xB8,
  0xB0,0xFA,0x64,0x68,0xF9,0x14,0xE4,0x74,0x00,0x02,0xA0,0xDF,0x8D,0x3F,
  0x90,0x87,0x5B,0xCE,0xE2,0x14,0x2D,0xED,0x07,0xC0,0x29,0x79,0x17,0xD6,
  0xA6,0x79,0x44,0xD7,0x2F,0xC3,0xE4,0xCF,0x44,0x31,0x94,0x6A,0xA3,0xC9,
  0xA9,0xFF,0x37,0xAD,0x1B,0x19,0xC1,0x3E,0xAC,0x87,0x80,0x5E,0x20,0xAF,
  0x46,0x07,0x06,0xA1,0x3B,0xFB,0xE3,0xAB,0x2B,0xA1,0xC6,0xDF,0x47,0xAE,
  0xA2,0x48,0x04,0x19,0xF6,0x82,0x2B,0x4F,0x17,0x36,0x91,0x9A,0xDC,0x9D,
  0xF8,0xBB,0x9E,0xC4,0x72,0xCF,0x64,0xD4,0xAE,0xBB,0xC0,0x50,0x05,0x64,
  0x5C,0x80,0xF0,0x5E,0x20,0x0E,0x9C,0x95,0x68,0x1B,0xBF,0x20,0x30,0xB7,
  0x07,0x2D,0x5F,0xA7,0xC9,0xDD,0x81,0xAE,0xED,0xA6,0x07,0x88,0x28,0x09,
  0x96,0xFA,0x44,0x28,0x6A,0x44,0x89,0x4B,0x46,0x19,0x35,0x15,0xC5,0x76,
  0x1F,0x01,0xD3,0xDF,0x80,0x4E,0x21,0x84,0x76,0xA2,0xEB,0xE9,0x68,0x4E,
  0x23,0x86,0xDD,0x11,0x28,0x4B,0xE2,0x10,0x65,0x85,0x24,0x05,0x16,0x8B,
  0xF9,0xB8,0xDB,0x4F,0x0F,0x18,0x86,0x60,0x25,0xD7,0x8A,0xFE,0x66,0x3F,
  0x56,0xDB,0x95,0x98,0x7B,0xC5,0x61,0xB4,0x6D,0xC7,0x69,0xCE,0x47,0x9E,
  0x3E,0x62,0x15,0x9C,0xEA,0xF1,0xEB,0xB3,0x69,0x6E,0x9C,0x43,0x54,0xC5,
  0x71,0xA2,0xCA,0x17,0xE3,0x6D,0x9C,0x4C,0xA3,0x3E,0xB3,0xB8,0x12,0x47,
  0xBB,0x01,0xF0,0xBD,0xEC,0xDD,0xE9,0x4D,0xA2,0x98,0x47,0xA2,0xB1,0x14,
  0x83,0xE1,0x0F,0x9C,0x50,0xA6,0xA1,0x85,0x50,0x1B,0x04,0x8D,0x16,0x39,
  0x8B,0x2A,0xBD,0x23,0xF1,0x3E,0x17,0x3D,0xB5,0x4F,0x31,0x73,0x47,0xF1,
  0x47,0x38,0xE1,0x67,0xFE,0x3D,0x1E,0x6E,0xD9,0xFB,0xA2,0xD0,0x93,0x68,
  0x34,0xAC,0x7C,0x87,0x31,0xA4,0xB3,0x24,0x12,0x68,0x42,0xCA,0x32,0x5A,
  0x44,0x34,0x4D,0xC5,0x9E,0xB3,0x0B,0x98,0xFF,0x01,0xCE,0x3E,0x07,0xC4,
  0x48,0x1D,0x56,0x52,0x00,0x00,0x00,0x00,0x49,0x45,0x4E,0x44,0xAE,0x42,
  0x60,0x82 ]

/-- The per-request handler produced by `serveFrom` in `src/web-share.go`,
applied to the validated absolute root directory `root` and a request.
Mirrors the closure body line by line: set the `Server` header, unescape
the request URI (HTTP 400 on failure), log the request, then either serve
the embedded icon for `/favicon.ico` or set the three cache-disabling
headers and delegate to the file server. -/
def serveFrom (root : String) (req : Request) : HandlerOutput :=
  let h0 : List (String × String) := [("Server", "web-share")]
  match QueryUnescape req.requestURI with
  | none =>
      { headersSet := h0
        logLines := [LogLine.invalidURI req.remoteAddr]
        action := HandlerAction.httpError "Invalid URI" 400 }
  | some uri =>
      let line := LogLine.request req.remoteAddr req.method (shortenURI uri)
        (loggedRange req.rangeHeader)
      if uri = "/favicon.ico" then
        { headersSet := h0 ++ [("Content-Type", "image/x-icon")]
          logLines := [line]
          action := HandlerAction.serveIcon req.urlPath faviconTS favicon }
      else
        { headersSet := h0 ++
            [("Cache-Control", "no-cache, no-store, must-revalidate"),
             ("Pragma", "no-cache"),
             ("Expires", "0")]
          logLines := [line]
          action := HandlerAction.delegate root req }

/-- HTTP status code of the response, given an abstract static file server
(`http.FileServer`) mapping root directory and request to a status.
`http.ServeContent` answers an unconditional request for the in-memory
icon with HTTP 200. -/
def responseStatus (fileServer : String → Request → Nat)
    (root : String) (req : Request) : Nat :=
  match (serveFrom root req).action with
  | HandlerAction.httpError _ status => status
  | HandlerAction.serveIcon _ _ _ => 200
  | HandlerAction.delegate r q => fileServer r q

/-- A network address as seen by `findIP`: either a `*net.IPNet` (whose
IPv4 form, when it has one, is `to4`) or an address of some other type. -/
inductive Addr where
  | ipNet (to4 : Option String)
  | other
deriving DecidableEq, Repr

/-- The IPv4 form of an address: `none` for non-`IPNet` addresses and for
addresses whose `To4()` is nil. -/
def ipv4Of : Addr → Option String
  | Addr.ipNet o => o
  | Addr.other => none

/-- A network interface as reported by the operating system: its up flag
and its address list (`Addrs()` can itself fail, carrying an error text). -/
structure NetInterface where
  up : Bool
  addrs : Except String (List Addr)

/-- The host environment: `net.InterfaceByName`, which either fails with
an error text or yields the named interface. -/
structure Env where
  interfaceByName : String → Except String NetInterface

/-- Result of the startup sequence: either the process dies (message
written to the error stream, exit code), or it proceeds to start the
server on the resolved address serving the given directory. -/
inductive StartupResult where
  | fatal (stderrMsg : String) (exitCode : Nat)
  | started (addr : String) (dir : String)
deriving DecidableEq, Repr

/-- The message `die` writes to the error stream (`src/web-share.go`),
branch for branch. -/
def dieMessage (msg : String) (err : Option String) : String :=
  match err with
  | some e =>
      if msg.length > 0 then "ERROR: " ++ msg ++ ": " ++ e ++ "\n"
      else "ERROR: " ++ e ++ "\n"
  | none =>
      if msg.length > 0 then "ERROR: " ++ msg ++ "\n"
      else "ERROR: Unknown internal error\n"

/-- Model of `die`: write the message and exit with code 1. -/
def die (msg : String) (err : Option String) : StartupResult :=
  StartupResult.fatal (dieMessage msg err) 1

/-- First IPv4 address in the list, as the loop in `findIP` finds it:
skip non-`IPNet` entries and entries without an IPv4 form, return the
first IPv4 form found, or the empty string. -/
def firstIPv4 : List Addr → String
  | [] => ""
  | Addr.ipNet ip :: rest =>
      match ip with
      | some ip4 => ip4
      | none => firstIPv4 rest
  | Addr.other :: rest => firstIPv4 rest

/-- Model of `findIP` (`src/web-share.go`): dies (exit code 1) when the
interface name is unknown, the interface is down, or its address list
cannot be obtained; otherwise returns the first IPv4 address found, or
the empty string if there is none. -/
def findIP (env : Env) (itf : String) : Except StartupResult String :=
  match env.interfaceByName itf with
  | Except.error e => Except.error (die "Invalid interface name" (some e))
  | Except.ok it =>
    if it.up = false then Except.error (die "Interface is DOWN" none)
    else
      match it.addrs with
      | Except.error e => Except.error (die "Cannot get interface address list" (some e))
      | Except.ok addrs => Except.ok (firstIPv4 addrs)

/-- Startup sequence of `main` (`src/web-share.go`) up to the point where
the server is started: validate the port, require an interface name,
resolve the interface to an IPv4 address, build the bound address.
Directory validation (`absPath`, inside `serveFrom`) happens after this
cut and is not needed by the claims about startup. -/
def mainStartup (env : Env) (itf : String) (port : Nat) (dir : String) :
    StartupResult :=
  if port = 0 || port > 0xFFFF then
    die ("Invalid port number: " ++ uintToString port) none
  else if itf.length = 0 then
    die "Network interface is not specified" none
  else
    match findIP env itf with
    | Except.error d => d
    | Except.ok addr =>
      if addr.length = 0 then
        die ("Cannot find IPv4 address of " ++ itf) none
      else
        StartupResult.started (addr ++ ":" ++ uintToString port) dir

/-- A 504-character string that `shortenURI` maps to itself although it is
longer than 500 characters: 500 copies of `a` followed by ` ...`. -/
def c10Bad : String := String.mk (List.replicate 500 'a') ++ " ..."

/-- A 501-character URI, used to exercise log truncation. -/
def longURI : String := String.mk (List.replicate 501 'a')

/-- A request for the 501-character URI. -/
def longReq : Request :=
  { requestURI := longURI, method := "GET", remoteAddr := "10.0.0.2:4242",
    rangeHeader := "", urlPath := longURI }

/-- A plain GET request for `/favicon.ico`. -/
def faviconReq : Request :=
  { requestURI := "/favicon.ico", method := "GET",
    remoteAddr := "10.0.0.2:4242", rangeHeader := "", urlPath := "/favicon.ico" }

/-- A request whose raw URI contains a malformed percent escape. -/
def badReq : Request :=
  { requestURI := "/a%zz", method := "GET", remoteAddr := "10.0.0.2:4242",
    rangeHeader := "", urlPath := "/a%zz" }

/-- Another request with a malformed percent escape (a trailing `%`). -/
def badReq2 : Request :=
  { requestURI := "/b%", method := "GET", remoteAddr := "10.0.0.3:4000",
    rangeHeader := "", urlPath := "/b%" }

/-- A plain GET request for the root path. -/
def rootReq : Request :=
  { requestURI := "/", method := "GET", remoteAddr := "10.0.0.2:4242",
    rangeHeader := "", urlPath := "/" }

/-- A host with no interfaces at all. -/
def envErr : Env := ⟨fun _ => Except.error "no such network interface"⟩

/-- A host whose every interface is down. -/
def envDown : Env := ⟨fun _ => Except.ok ⟨false, Except.ok []⟩⟩

/-- A host whose interfaces are up but whose address lists cannot be read. -/
def envAddrErr : Env := ⟨fun _ => Except.ok ⟨true, Except.error "route fail"⟩⟩

/-- A host whose interfaces are up, with a non-IP entry, an IPv6-only
entry and an IPv4 entry, in that order. -/
def envOk : Env :=
  ⟨fun _ => Except.ok
    ⟨true, Except.ok [Addr.other, Addr.ipNet none, Addr.ipNet (some "192.168.0.7")]⟩⟩

/-- A host whose interfaces are up but expose no IPv4 address. -/
def envNoIP : Env := ⟨fun _ => Except.ok ⟨true, Except.ok [Addr.other]⟩⟩

/-- An abstract static file server that answers every request with 404,
used to instantiate theorems quantifying over the file server. -/
def fs404 : String → Request → Nat := fun _ _ => 404

/-! ## Helper lemmas -/

/-- Unescaping steps over a character that is neither `%` nor `+`. -/
theorem queryUnescapeAux_cons (c : Char) (rest : List Char)
    (h1 : c ≠ '%') (h2 : c ≠ '+') :
    queryUnescapeAux (c :: rest) = (queryUnescapeAux rest).map (fun l => c :: l) := by
  rw [queryUnescapeAux.eq_def]
  simp only [if_neg h1, if_neg h2]

/-- A string without `%` or `+` characters unescapes to itself. -/
theorem queryUnescapeAux_plain (l : List Char) :
    (∀ c ∈ l, c ≠ '%' ∧ c ≠ '+') → queryUnescapeAux l = some l := by
  induction l with
  | nil => intro _; rfl
  | cons c rest ih =>
    intro h
    have hc := h c (List.mem_cons_self c rest)
    have hrest : ∀ x ∈ rest, x ≠ '%' ∧ x ≠ '+' :=
      fun x hx => h x (List.mem_cons_of_mem c hx)
    rw [queryUnescapeAux_cons c rest hc.1 hc.2, ih hrest]
    rfl

/-- A string without `%` or `+` characters unescapes to itself. -/
theorem queryUnescape_plain (s : String) (h : ∀ c ∈ s.data, c ≠ '%' ∧ c ≠ '+') :
    QueryUnescape s = some s := by
  unfold QueryUnescape
  rw [queryUnescapeAux_plain s.data h]
  rfl

/-- The long test URI unescapes to itself. -/
theorem longURI_unescapes : QueryUnescape longURI = some longURI := by
  refine queryUnescape_plain longURI ?_
  intro c hc
  have : c = 'a' := List.eq_of_mem_replicate hc
  subst this
  exact ⟨by decide, by decide⟩

/-- Behaviour of the handler on a request whose URI fails to unescape. -/
theorem serveFrom_noneCase (root : String) (req : Request)
    (h : QueryUnescape req.requestURI = none) :
    serveFrom root req =
      { headersSet := [("Server", "web-share")],
        logLines := [LogLine.invalidURI req.remoteAddr],
        action := HandlerAction.httpError "Invalid URI" 400 } := by
  unfold serveFrom
  rw [h]

/-- Behaviour of the handler on a request whose URI unescapes to
`/favicon.ico`. -/
theorem serveFrom_faviconCase (root : String) (req : Request)
    (h : QueryUnescape req.requestURI = some "/favicon.ico") :
    serveFrom root req =
      { headersSet := [("Server", "web-share"), ("Content-Type", "image/x-icon")],
        logLines := [LogLine.request req.remoteAddr req.method "/favicon.ico"
          (loggedRange req.rangeHeader)],
        action := HandlerAction.serveIcon req.urlPath faviconTS favicon } := by
  unfold serveFrom
  rw [h]
  rfl

/-- Behaviour of the handler on a request whose URI unescapes to anything
other than `/favicon.ico`. -/
theorem serveFrom_otherCase (root : String) (req : Request) (uri : String)
    (h : QueryUnescape req.requestURI = some uri) (hne : uri ≠ "/favicon.ico") :
    serveFrom root req =
      { headersSet := [("Server", "web-share"),
          ("Cache-Control", "no-cache, no-store, must-revalidate"),
          ("Pragma", "no-cache"), ("Expires", "0")],
        logLines := [LogLine.request req.remoteAddr req.method (shortenURI uri)
          (loggedRange req.rangeHeader)],
        action := HandlerAction.delegate root req } := by
  unfold serveFrom
  rw [h]
  simp only [if_neg hne]
  rfl

/-- `shortenURI` on a URI longer than 500 characters. -/
theorem shortenURI_long (u : String) (h : maxURI < u.length) :
    shortenURI u = String.mk (u.data.take maxURI) ++ " ..." := by
  unfold shortenURI
  rw [if_pos h]

/-- `shortenURI` on a URI of at most 500 characters. -/
theorem shortenURI_short (u : String) (h : ¬ maxURI < u.length) :
    shortenURI u = u := by
  unfold shortenURI
  rw [if_neg h]

/-- `firstIPv4` returns the head of the list of IPv4 forms, in OS order,
or the empty string when there is none. -/
theorem firstIPv4_eq_headD (addrs : List Addr) :
    firstIPv4 addrs = (addrs.filterMap ipv4Of).headD "" := by
  induction addrs with
  | nil => rfl
  | cons a rest ih =>
    cases a with
    | ipNet o =>
      cases o with
      | none => simpa [firstIPv4, List.filterMap_cons, ipv4Of] using ih
      | some ip4 => simp [firstIPv4, List.filterMap_cons, ipv4Of]
    | other => simpa [firstIPv4, List.filterMap_cons, ipv4Of] using ih

/-! ## Claims -/

/-- Claim C1: for every HTTP request whose unescaped URI equals
`/favicon.ico`, the handler serves the embedded icon blob with the
`Content-Type` header set to `image/x-icon` and the fixed process-start
timestamp `faviconTS` for conditional-GET support, returning HTTP 200
regardless of whether a file named `favicon.ico` exists under the served
root directory (the status is the same for every static file server),
and without consulting the static file server. -/
theorem favicon_served_from_embedded_icon
    (fileServer : String → Request → Nat) (root : String) (req : Request)
    (h : QueryUnescape req.requestURI = some "/favicon.ico") :
    responseStatus fileServer root req = 200 ∧
    (serveFrom root req).headersSet =
      [("Server", "web-share"), ("Content-Type", "image/x-icon")] ∧
    (serveFrom root req).action =
      HandlerAction.serveIcon req.urlPath faviconTS favicon ∧
    (∀ fs2 : String → Request → Nat, responseStatus fs2 root req = 200) := by
  have e := serveFrom_faviconCase root req h
  have hstat : ∀ fs2 : String → Request → Nat, responseStatus fs2 root req = 200 := by
    intro fs2
    unfold responseStatus
    rw [e]
  exact ⟨hstat fileServer, by rw [e], by rw [e], hstat⟩

/-- Witness for C1 at a concrete `GET /favicon.ico` request. -/
theorem favicon_served_from_embedded_icon_witness :
    QueryUnescape faviconReq.requestURI = some "/favicon.ico" ∧
    responseStatus fs404 "/srv" faviconReq = 200 ∧
    (serveFrom "/srv" faviconReq).headersSet =
      [("Server", "web-share"), ("Content-Type", "image/x-icon")] ∧
    (serveFrom "/srv" faviconReq).action =
      HandlerAction.serveIcon "/favicon.ico" faviconTS favicon :=
  have h : QueryUnescape faviconReq.requestURI = some "/favicon.ico" := by decide
  have c := favicon_served_from_embedded_icon fs404 "/srv" faviconReq h
  ⟨h, c.1, c.2.1, c.2.2.1⟩

/-- Claim C2: for every HTTP request whose raw request URI fails
percent-unescaping, the handler responds with HTTP 400 and body
`Invalid URI`, logs the error (and nothing else: no method/URI line), and
takes no file-serving action.  The handler is a total function of the
request alone, so this invocation returns normally and every other
request is still handled according to the same function. -/
theorem invalid_uri_answered_with_400
    (fileServer : String → Request → Nat) (root : String) (req : Request)
    (h : QueryUnescape req.requestURI = none) :
    serveFrom root req =
      { headersSet := [("Server", "web-share")],
        logLines := [LogLine.invalidURI req.remoteAddr],
        action := HandlerAction.httpError "Invalid URI" 400 } ∧
    responseStatus fileServer root req = 400 := by
  have e := serveFrom_noneCase root req h
  refine ⟨e, ?_⟩
  unfold responseStatus
  rw [e]

/-- Witness for C2 at a concrete request with a malformed escape. -/
theorem invalid_uri_answered_with_400_witness :
    QueryUnescape badReq.requestURI = none ∧
    serveFrom "/srv" badReq =
      { headersSet := [("Server", "web-share")],
        logLines := [LogLine.invalidURI "10.0.0.2:4242"],
        action := HandlerAction.httpError "Invalid URI" 400 } ∧
    responseStatus fs404 "/srv" badReq = 400 :=
  have h : QueryUnescape badReq.requestURI = none := by decide
  have c := invalid_uri_answered_with_400 fs404 "/srv" badReq h
  ⟨h, c.1, c.2⟩

/-- Claim C3: for every HTTP request whose unescaped URI is not
`/favicon.ico` (and whose unescaping succeeds), the handler sets exactly
the three cache-disabling headers `Cache-Control`, `Pragma` and `Expires`
(after the `Server` header) and then delegates the request to the static
file server rooted at the validated root directory. -/
theorem non_favicon_gets_no_cache_headers_and_delegates
    (root : String) (req : Request) (uri : String)
    (h : QueryUnescape req.requestURI = some uri) (hne : uri ≠ "/favicon.ico") :
    (serveFrom root req).headersSet =
      [("Server", "web-share"),
       ("Cache-Control", "no-cache, no-store, must-revalidate"),
       ("Pragma", "no-cache"), ("Expires", "0")] ∧
    (serveFrom root req).action = HandlerAction.delegate root req := by
  have e := serveFrom_otherCase root req uri h hne
  exact ⟨by rw [e], by rw [e]⟩

/-- Witness for C3 at a concrete `GET /` request. -/
theorem non_favicon_gets_no_cache_headers_and_delegates_witness :
    QueryUnescape rootReq.requestURI = some "/" ∧ "/" ≠ "/favicon.ico" ∧
    (serveFrom "/srv" rootReq).headersSet =
      [("Server", "web-share"),
       ("Cache-Control", "no-cache, no-store, must-revalidate"),
       ("Pragma", "no-cache"), ("Expires", "0")] ∧
    (serveFrom "/srv" rootReq).action = HandlerAction.delegate "/srv" rootReq :=
  have h : QueryUnescape rootReq.requestURI = some "/" := by decide
  have hne : "/" ≠ "/favicon.ico" := by decide
  have c := non_favicon_gets_no_cache_headers_and_delegates "/srv" rootReq "/" h hne
  ⟨h, hne, c.1, c.2⟩

/-- Claim C7: on every branch of the handler (favicon, delegated file
serving, and the HTTP 400 invalid-URI error path) the first response
header the handler sets is `Server: web-share`, before any other
processing of the request. -/
theorem server_header_set_first (root : String) (req : Request) :
    (serveFrom root req).headersSet.head? = some ("Server", "web-share") := by
  cases hq : QueryUnescape req.requestURI with
  | none => rw [serveFrom_noneCase root req hq]; rfl
  | some uri =>
    by_cases hne : uri = "/favicon.ico"
    · subst hne
      rw [serveFrom_faviconCase root req hq]; rfl
    · rw [serveFrom_otherCase root req uri hq hne]; rfl

/-- Claim C9: on the invalid-URI error path the only response header the
handler itself sets is `Server: web-share`: no cache-disabling headers,
no `Content-Type`, because the handler returns before reaching the
header-setting and delegation code. -/
theorem invalid_uri_sets_only_server_header (root : String) (req : Request)
    (h : QueryUnescape req.requestURI = none) :
    (serveFrom root req).headersSet = [("Server", "web-share")] ∧
    (∀ p ∈ (serveFrom root req).headersSet, p = ("Server", "web-share")) ∧
    (serveFrom root req).action = HandlerAction.httpError "Invalid URI" 400 := by
  have e := serveFrom_noneCase root req h
  refine ⟨by rw [e], ?_, by rw [e]⟩
  intro p hp
  rw [e] at hp
  simpa using hp

/-- Witness for C9 at a concrete request with a trailing `%`. -/
theorem invalid_uri_sets_only_server_header_witness :
    QueryUnescape badReq2.requestURI = none ∧
    (serveFrom "/data" badReq2).headersSet = [("Server", "web-share")] ∧
    (serveFrom "/data" badReq2).action = HandlerAction.httpError "Invalid URI" 400 :=
  have h : QueryUnescape badReq2.requestURI = none := by decide
  have c := invalid_uri_sets_only_server_header "/data" badReq2 h
  ⟨h, c.1, c.2.2⟩

/-! ## Further helper lemmas -/

/-- A string has positive length exactly when it is non-empty. -/
theorem string_length_pos_iff (s : String) : 0 < s.length ↔ s ≠ "" := by
  rw [show s.length = s.data.length from rfl, List.length_pos]
  constructor
  · intro hd he
    apply hd
    rw [he]
  · intro hs hd
    exact hs (String.ext hd)

/-- `die` with a non-empty message and no underlying error writes
`ERROR: ` followed by the message. -/
theorem dieMessage_msg_none (msg : String) (h : 0 < msg.length) :
    dieMessage msg none = "ERROR: " ++ msg ++ "\n" := by
  unfold dieMessage
  rw [if_pos h]

/-! ## Claims, continued -/

/-- Claim C4: for every successfully unescaped URI longer than 500
characters, the value written to the log is exactly the first 500
characters of the unescaped URI followed by the ellipsis marker ` ...`,
while the request dispatched to the file-serving logic is the original
request carrying the full untruncated value; a URI of 500 characters or
fewer is logged unchanged. -/
theorem long_uri_logged_truncated_served_full
    (root : String) (req : Request) (uri : String)
    (h : QueryUnescape req.requestURI = some uri) :
    (maxURI < uri.length →
      (serveFrom root req).logLines =
        [LogLine.request req.remoteAddr req.method
          (String.mk (uri.data.take maxURI) ++ " ...") (loggedRange req.rangeHeader)] ∧
      (serveFrom root req).action = HandlerAction.delegate root req) ∧
    (uri.length ≤ maxURI →
      (serveFrom root req).logLines =
        [LogLine.request req.remoteAddr req.method uri (loggedRange req.rangeHeader)]) := by
  constructor
  · intro hlen
    have hne : uri ≠ "/favicon.ico" := by
      intro e
      rw [e] at hlen
      exact absurd hlen (by decide)
    have e := serveFrom_otherCase root req uri h hne
    constructor
    · rw [e, shortenURI_long uri hlen]
    · rw [e]
  · intro hlen
    have hs : shortenURI uri = uri := shortenURI_short uri (Nat.not_lt.mpr hlen)
    by_cases hne : uri = "/favicon.ico"
    · subst hne
      rw [serveFrom_faviconCase root req h]
    · rw [serveFrom_otherCase root req uri h hne, hs]

set_option maxRecDepth 8192 in
/-- Witness for C4 at a concrete 501-character URI. -/
theorem long_uri_logged_truncated_served_full_witness :
    QueryUnescape longReq.requestURI = some longURI ∧
    maxURI < longURI.length ∧
    (serveFrom "/srv" longReq).logLines =
      [LogLine.request "10.0.0.2:4242" "GET"
        (String.mk (longURI.data.take maxURI) ++ " ...") (loggedRange "")] ∧
    (serveFrom "/srv" longReq).action = HandlerAction.delegate "/srv" longReq :=
  have h : QueryUnescape longReq.requestURI = some longURI := longURI_unescapes
  have hlen : maxURI < longURI.length := by
    rw [show longURI.length = (List.replicate 501 'a').length from rfl,
      List.length_replicate]
    decide
  have c := (long_uri_logged_truncated_served_full "/srv" longReq longURI h).1 hlen
  ⟨h, hlen, c.1, c.2⟩

/-- Claim C8: for every request whose URI unescapes successfully, the log
line includes the Range header value if and only if that header is
present with a non-empty value different from `bytes=0-`; otherwise the
log line records only remote address, method and (possibly truncated)
URI. -/
theorem range_logged_iff_nontrivial
    (root : String) (req : Request) (uri : String)
    (h : QueryUnescape req.requestURI = some uri) :
    (serveFrom root req).logLines =
      [LogLine.request req.remoteAddr req.method (shortenURI uri)
        (loggedRange req.rangeHeader)] ∧
    (∀ rng r : String,
      loggedRange rng = some r ↔ r = rng ∧ rng ≠ "" ∧ rng ≠ "bytes=0-") ∧
    (∀ rng : String, loggedRange rng = none ↔ rng = "" ∨ rng = "bytes=0-") := by
  refine ⟨?_, ?_, ?_⟩
  · by_cases hne : uri = "/favicon.ico"
    · subst hne
      rw [serveFrom_faviconCase root req h]
      rfl
    · rw [serveFrom_otherCase root req uri h hne]
  · intro rng r
    unfold loggedRange
    by_cases h1 : rng = ""
    · subst h1
      rw [if_neg (by decide)]
      simp
    · by_cases h2 : rng = "bytes=0-"
      · subst h2
        rw [if_neg (by decide)]
        simp
      · have hp : 0 < rng.length := (string_length_pos_iff rng).mpr h1
        rw [if_pos]
        · constructor
          · intro hsome
            exact ⟨(Option.some_injective _ hsome).symm, h1, h2⟩
          · intro hr
            rw [hr.1]
        · simp [hp, bne_iff_ne, h2]
  · intro rng
    unfold loggedRange
    by_cases h1 : rng = ""
    · subst h1
      rw [if_neg (by decide)]
      simp
    · by_cases h2 : rng = "bytes=0-"
      · subst h2
        rw [if_neg (by decide)]
        simp
      · have hp : 0 < rng.length := (string_length_pos_iff rng).mpr h1
        rw [if_pos]
        · simp [h1, h2]
        · simp [hp, bne_iff_ne, h2]

/-- Witness for C8 at a concrete request, with the three Range shapes. -/
theorem range_logged_iff_nontrivial_witness :
    QueryUnescape rootReq.requestURI = some "/" ∧
    (serveFrom "/srv" rootReq).logLines =
      [LogLine.request "10.0.0.2:4242" "GET" "/" (loggedRange "")] ∧
    (loggedRange "bytes=3-7" = some "bytes=3-7" ↔
      "bytes=3-7" = "bytes=3-7" ∧ "bytes=3-7" ≠ "" ∧ "bytes=3-7" ≠ "bytes=0-") ∧
    (loggedRange "bytes=0-" = none ↔ "bytes=0-" = "" ∨ "bytes=0-" = "bytes=0-") :=
  have h : QueryUnescape rootReq.requestURI = some "/" := by decide
  have c := range_logged_iff_nontrivial "/srv" rootReq "/" h
  ⟨h, c.1, c.2.1 "bytes=3-7" "bytes=3-7", c.2.2 "bytes=0-"⟩

/-- Claim C5: for every command-line port value equal to 0 or greater
than 65535, startup fails with the message
`ERROR: Invalid port number: <port>` on the error stream and exit code 1,
and the outcome is the same for every host environment, interface name
and directory argument — so the failure happens before any address
resolution or listener creation, regardless of the validity of the
interface and directory arguments. -/
theorem invalid_port_fails_startup
    (env : Env) (itf : String) (dir : String) (port : Nat)
    (h : port = 0 ∨ 65535 < port) :
    mainStartup env itf port dir =
      StartupResult.fatal ("ERROR: Invalid port number: " ++ uintToString port ++ "\n") 1 ∧
    (∀ (env2 : Env) (itf2 dir2 : String),
      mainStartup env2 itf2 port dir2 = mainStartup env itf port dir) := by
  have key : ∀ (e : Env) (i d : String),
      mainStartup e i port d =
        StartupResult.fatal
          ("ERROR: Invalid port number: " ++ uintToString port ++ "\n") 1 := by
    intro e i d
    unfold mainStartup
    have hb : (decide (port = 0) || decide (port > 0xFFFF)) = true := by
      rcases h with h | h <;> simp [h]
    rw [if_pos hb]
    unfold die
    have hlen : 0 < ("Invalid port number: " ++ uintToString port).length := by
      rw [String.length_append]
      have h21 : 0 < ("Invalid port number: ").length := by decide
      omega
    rw [dieMessage_msg_none _ hlen]
    rfl
  exact ⟨key env itf dir, fun env2 itf2 dir2 => (key env2 itf2 dir2).trans (key env itf dir).symm⟩

/-- Witness for C5 at port 0 on a concrete environment. -/
theorem invalid_port_fails_startup_witness :
    ((0 : Nat) = 0 ∨ 65535 < (0 : Nat)) ∧
    mainStartup envErr "eth0" 0 "." =
      StartupResult.fatal ("ERROR: Invalid port number: " ++ uintToString 0 ++ "\n") 1 ∧
    mainStartup envOk "wlan0" 0 "/srv" = mainStartup envErr "eth0" 0 "." :=
  have h : (0 : Nat) = 0 ∨ 65535 < (0 : Nat) := Or.inl rfl
  have c := invalid_port_fails_startup envErr "eth0" "." 0 h
  ⟨h, c.1, c.2 envOk "wlan0" "/srv"⟩

/-- Claim C6: `findIP` terminates the process with exit code 1 when the
interface name is unknown, when the interface lacks the up flag, or when
its address list cannot be obtained; otherwise it returns the string form
of the first IPv4 address in the interface's address list, in OS order,
skipping non-IP-network entries and addresses with no IPv4 form, and
returns the empty string when no IPv4 address exists, which `main` then
turns into a fatal startup error. -/
theorem findIP_startup_behaviour :
    (∀ (env : Env) (itf e : String), env.interfaceByName itf = Except.error e →
      findIP env itf =
        Except.error
          (StartupResult.fatal (dieMessage "Invalid interface name" (some e)) 1)) ∧
    (∀ (env : Env) (itf : String) (it : NetInterface),
      env.interfaceByName itf = Except.ok it → it.up = false →
      findIP env itf =
        Except.error (StartupResult.fatal (dieMessage "Interface is DOWN" none) 1)) ∧
    (∀ (env : Env) (itf : String) (it : NetInterface) (e : String),
      env.interfaceByName itf = Except.ok it → it.up = true →
      it.addrs = Except.error e →
      findIP env itf =
        Except.error
          (StartupResult.fatal
            (dieMessage "Cannot get interface address list" (some e)) 1)) ∧
    (∀ (env : Env) (itf : String) (it : NetInterface) (addrs : List Addr),
      env.interfaceByName itf = Except.ok it → it.up = true →
      it.addrs = Except.ok addrs →
      findIP env itf = Except.ok ((addrs.filterMap ipv4Of).headD "")) ∧
    (∀ (env : Env) (itf : String) (port : Nat) (dir : String),
      ¬(port = 0 ∨ 0xFFFF < port) → itf.length ≠ 0 →
      findIP env itf = Except.ok "" →
      mainStartup env itf port dir =
        StartupResult.fatal
          (dieMessage ("Cannot find IPv4 address of " ++ itf) none) 1) := by
  refine ⟨?_, ?_, ?_, ?_, ?_⟩
  · intro env itf e h
    unfold findIP
    rw [h]
    rfl
  · intro env itf it h h2
    unfold findIP
    rw [h]
    simp [h2, die]
  · intro env itf it e h h2 h3
    unfold findIP
    rw [h]
    simp [h2, h3, die]
  · intro env itf it addrs h h2 h3
    unfold findIP
    rw [h]
    simp [h2, h3, firstIPv4_eq_headD]
  · intro env itf port dir hport hitf hip
    have hn := not_or.mp hport
    have hb : (decide (port = 0) || decide (port > 0xFFFF)) = false := by
      simp [hn.1, hn.2]
    unfold mainStartup
    rw [hb, if_neg hitf, hip]
    rfl

/-- Witness for C6: one concrete host per branch of the claim. -/
theorem findIP_startup_behaviour_witness :
    envErr.interfaceByName "eth0" = Except.error "no such network interface" ∧
    findIP envErr "eth0" =
      Except.error
        (StartupResult.fatal
          (dieMessage "Invalid interface name" (some "no such network interface")) 1) ∧
    findIP envDown "eth0" =
      Except.error (StartupResult.fatal (dieMessage "Interface is DOWN" none) 1) ∧
    findIP envAddrErr "eth0" =
      Except.error
        (StartupResult.fatal
          (dieMessage "Cannot get interface address list" (some "route fail")) 1) ∧
    findIP envOk "eth0" = Except.ok "192.168.0.7" ∧
    mainStartup envNoIP "eth0" 8080 "." =
      StartupResult.fatal (dieMessage ("Cannot find IPv4 address of " ++ "eth0") none) 1 :=
  have c := findIP_startup_behaviour
  ⟨rfl,
   c.1 envErr "eth0" "no such network interface" rfl,
   c.2.1 envDown "eth0" ⟨false, Except.ok []⟩ rfl rfl,
   c.2.2.1 envAddrErr "eth0" ⟨true, Except.error "route fail"⟩ "route fail" rfl rfl rfl,
   c.2.2.2.1 envOk "eth0"
     ⟨true, Except.ok [Addr.other, Addr.ipNet none, Addr.ipNet (some "192.168.0.7")]⟩
     [Addr.other, Addr.ipNet none, Addr.ipNet (some "192.168.0.7")] rfl rfl rfl,
   c.2.2.2.2 envNoIP "eth0" 8080 "." (by decide) (by decide) rfl⟩

/-- Claim C10 counterexample: the string of 500 `a`s followed by ` ...`
has length 504 (more than 500) yet `shortenURI` returns it unchanged, so
"returns u unchanged exactly when u has length at most 500" fails in the
only-if direction. -/
theorem shortenURI_fixed_point_longer_than_500 :
    shortenURI c10Bad = c10Bad ∧ maxURI < c10Bad.length := by
  have hdata : c10Bad.data = List.replicate 500 'a' ++ (" ...").data :=
    String.data_append _ _
  have hlen : c10Bad.length = 504 := by
    rw [show c10Bad.length = c10Bad.data.length from rfl, hdata,
      List.length_append, List.length_replicate]
    rfl
  have hl : maxURI < c10Bad.length := by
    rw [hlen]
    decide
  refine ⟨?_, hl⟩
  rw [shortenURI_long c10Bad hl, hdata,
    List.take_left' (by rw [List.length_replicate]; rfl)]
  rfl

/-- Claim C10 (amended): `shortenURI` is idempotent, its result agrees
with `u` on the first 500 characters and has length at most 504, and it
returns `u` unchanged whenever `u` has length at most 500 — but not only
then: it returns `u` unchanged exactly when `u` has length at most 500
or `u` already equals its own truncation, that is, its first 500
characters followed by ` ...`. -/
theorem shortenURI_algebraic_properties (u : String) :
    shortenURI (shortenURI u) = shortenURI u ∧
    (shortenURI u).data.take maxURI = u.data.take maxURI ∧
    (shortenURI u).length ≤ maxURI + 4 ∧
    (u.length ≤ maxURI → shortenURI u = u) ∧
    (shortenURI u = u ↔
      u.length ≤ maxURI ∨ u = String.mk (u.data.take maxURI) ++ " ...") := by
  by_cases hl : maxURI < u.length
  · have e : shortenURI u = String.mk (u.data.take maxURI) ++ " ..." :=
      shortenURI_long u hl
    have edata : (shortenURI u).data = u.data.take maxURI ++ (" ...").data := by
      rw [e, String.data_append]
    have htl : (u.data.take maxURI).length = maxURI := by
      rw [List.length_take]
      exact min_eq_left (Nat.le_of_lt hl)
    have hlen : (shortenURI u).length = maxURI + 4 := by
      rw [show (shortenURI u).length = (shortenURI u).data.length from rfl, edata,
        List.length_append, htl]
      rfl
    have htake : (shortenURI u).data.take maxURI = u.data.take maxURI := by
      rw [edata]
      exact List.take_left' htl
    have hl2 : maxURI < (shortenURI u).length := by
      rw [hlen]
      omega
    refine ⟨?_, htake, le_of_eq hlen, ?_, ?_⟩
    · rw [shortenURI_long _ hl2, htake]
      exact e.symm
    · intro hle
      exact absurd hl (Nat.not_lt.mpr hle)
    · constructor
      · intro heq
        exact Or.inr (heq.symm.trans e)
      · rintro (hle | hu)
        · exact absurd hl (Nat.not_lt.mpr hle)
        · rw [e]
          exact hu.symm
  · have e : shortenURI u = u := shortenURI_short u hl
    have hle : u.length ≤ maxURI := Nat.not_lt.mp hl
    refine ⟨?_, by rw [e], ?_, fun _ => e, iff_of_true e (Or.inl hle)⟩
    · rw [e]
      exact e
    · rw [e]
      unfold maxURI
      unfold maxURI at hle
      omega

/-- Witness for C10 (amended) at a concrete short string. -/
theorem shortenURI_algebraic_properties_witness :
    shortenURI (shortenURI "/abc") = shortenURI "/abc" ∧
    ("/abc").length ≤ maxURI ∧ shortenURI "/abc" = "/abc" :=
  have c := shortenURI_algebraic_properties "/abc"
  ⟨c.1, by decide, c.2.2.2.1 (by decide)⟩
